import Mathlib

/-!
Shallow embedding of `wasenderapi/webhook.py`: a typed schema for inbound
webhook payloads (chat, group, contact, message and session lifecycle
events) together with a signature-verification helper, and proofs of the
documented properties of that module.
-/

namespace Wasender

/-- JSON values, the wire format of webhook deliveries.  Numbers are
modelled as integers: every numeric field of the schema (timestamps,
counters) is integer-valued. -/
inductive Json where
  | null : Json
  | bool (b : Bool) : Json
  | num (n : Int) : Json
  | str (s : String) : Json
  | arr (items : List Json) : Json
  | obj (fields : List (String × Json)) : Json

/-- A JSON object body: an ordered list of key/value pairs. -/
abbrev JObj := List (String × Json)

/-- The HTTP header that carries the webhook signature
(`WEBHOOK_SIGNATURE_HEADER` in the source). -/
def WEBHOOK_SIGNATURE_HEADER : String := "x-webhook-signature"

/-- Python truthiness of an optional string: `None` and the empty string
are falsy, every other string is truthy.  This models the test
`not request_signature` in the source. -/
def pyTruthy : Option String → Bool
  | none => false
  | some s => !(decide (s = ""))

/-- Embedding of `verify_wasender_webhook_signature`: returns `False` when
either argument is falsy (absent or empty), otherwise compares the two
strings with ordinary equality. -/
def verify_wasender_webhook_signature
    (request_signature : Option String) (configured_secret : Option String) : Bool :=
  if !(pyTruthy request_signature) || !(pyTruthy configured_secret) then false
  else decide (request_signature = configured_secret)

/-- The closed enumeration `WasenderWebhookEventType` of the 16 event
tags. -/
inductive WasenderWebhookEventType where
  | CHATS_UPSERT
  | CHATS_UPDATE
  | CHATS_DELETE
  | GROUPS_UPSERT
  | GROUPS_UPDATE
  | GROUP_PARTICIPANTS_UPDATE
  | CONTACTS_UPSERT
  | CONTACTS_UPDATE
  | MESSAGES_UPSERT
  | MESSAGES_UPDATE
  | MESSAGES_DELETE
  | MESSAGES_REACTION
  | MESSAGE_RECEIPT_UPDATE
  | MESSAGE_SENT
  | SESSION_STATUS
  | QRCODE_UPDATED
deriving DecidableEq

/-- The string value of each event tag, exactly as in the source
enumeration. -/
def WasenderWebhookEventType.toWire : WasenderWebhookEventType → String
  | .CHATS_UPSERT => "chats.upsert"
  | .CHATS_UPDATE => "chats.update"
  | .CHATS_DELETE => "chats.delete"
  | .GROUPS_UPSERT => "groups.upsert"
  | .GROUPS_UPDATE => "groups.update"
  | .GROUP_PARTICIPANTS_UPDATE => "group-participants.update"
  | .CONTACTS_UPSERT => "contacts.upsert"
  | .CONTACTS_UPDATE => "contacts.update"
  | .MESSAGES_UPSERT => "messages.upsert"
  | .MESSAGES_UPDATE => "messages.update"
  | .MESSAGES_DELETE => "messages.delete"
  | .MESSAGES_REACTION => "messages.reaction"
  | .MESSAGE_RECEIPT_UPDATE => "message-receipt.update"
  | .MESSAGE_SENT => "message.sent"
  | .SESSION_STATUS => "session.status"
  | .QRCODE_UPDATED => "qrcode.updated"

/-- Recognising an event tag string: the inverse of
`WasenderWebhookEventType.toWire`, `none` for a string outside the closed
enumeration. -/
def WasenderWebhookEventType.fromWire (s : String) : Option WasenderWebhookEventType :=
  if s = "chats.upsert" then some .CHATS_UPSERT
  else if s = "chats.update" then some .CHATS_UPDATE
  else if s = "chats.delete" then some .CHATS_DELETE
  else if s = "groups.upsert" then some .GROUPS_UPSERT
  else if s = "groups.update" then some .GROUPS_UPDATE
  else if s = "group-participants.update" then some .GROUP_PARTICIPANTS_UPDATE
  else if s = "contacts.upsert" then some .CONTACTS_UPSERT
  else if s = "contacts.update" then some .CONTACTS_UPDATE
  else if s = "messages.upsert" then some .MESSAGES_UPSERT
  else if s = "messages.update" then some .MESSAGES_UPDATE
  else if s = "messages.delete" then some .MESSAGES_DELETE
  else if s = "messages.reaction" then some .MESSAGES_REACTION
  else if s = "message-receipt.update" then some .MESSAGE_RECEIPT_UPDATE
  else if s = "message.sent" then some .MESSAGE_SENT
  else if s = "session.status" then some .SESSION_STATUS
  else if s = "qrcode.updated" then some .QRCODE_UPDATED
  else none

/-!
Data model.  Each structure mirrors one pydantic model of the source:
same fields, in declaration order; `Optional[...] = None` fields become
`Option` fields; fields declared with a wire alias keep the internal
(snake_case) name here and are read from / written to the alias key by
the decoder and serialiser below.
-/

/-- Modelled from the spec: `GroupParticipant` is imported from a module
that is not in the sources (`wasenderapi/groups.py`); the spec treats it
as an opaque record with at least an identifier field. -/
structure GroupParticipant where
  id : String
deriving DecidableEq

/-- The `MessageKey` model: `id`, `from_me` (wire `fromMe`),
`remote_jid` (wire `remoteJid`), optional `participant`. -/
structure MessageKey where
  id : String
  from_me : Bool
  remote_jid : String
  participant : Option String
deriving DecidableEq

/-- The `ChatEntry` model. -/
structure ChatEntry where
  id : String
  name : Option String
  conversation_timestamp : Option Int
  unread_count : Option Int
  mute_end_time : Option Int
  is_spam : Option Bool
deriving DecidableEq

/-- The `GroupMetadata` model. -/
structure GroupMetadata where
  jid : String
  subject : String
  creation : Option Int
  owner : Option String
  desc : Option String
  participants : Option (List GroupParticipant)
  announce : Option Bool
  restrict : Option Bool
deriving DecidableEq

/-- The four values of the `action` literal of
`GroupParticipantsUpdateData`. -/
def actionValues : List String := ["add", "remove", "promote", "demote"]

/-- The `GroupParticipantsUpdateData` model; each participant is either a
plain id string or a full `GroupParticipant` record, and `action` is one
of `actionValues`. -/
structure GroupParticipantsUpdateData where
  jid : String
  participants : List (String ⊕ GroupParticipant)
  action : String
deriving DecidableEq

/-- The `ContactEntry` model. -/
structure ContactEntry where
  jid : String
  name : Option String
  notify : Option String
  verified_name : Option String
  status : Option String
  img_url : Option String
deriving DecidableEq

/-- The `MessageContent` model: an optional `conversation` string and one
opaque key/value object per media kind (`Dict[str, Any]` in the source,
kept as a raw JSON object body). -/
structure MessageContent where
  conversation : Option String
  image_message : Option JObj
  video_message : Option JObj
  document_message : Option JObj
  audio_message : Option JObj
  sticker_message : Option JObj
  contact_message : Option JObj
  location_message : Option JObj

/-- The `MessagesUpsertData` model. -/
structure MessagesUpsertData where
  key : MessageKey
  message : Option MessageContent
  push_name : Option String
  message_timestamp : Option Int

/-- The `MessageUpdate` model. -/
structure MessageUpdate where
  status : String
deriving DecidableEq

/-- The `MessagesUpdateDataEntry` model. -/
structure MessagesUpdateDataEntry where
  key : MessageKey
  update : MessageUpdate
deriving DecidableEq

/-- The `MessagesDeleteData` model. -/
structure MessagesDeleteData where
  keys : List MessageKey
deriving DecidableEq

/-- The `Reaction` model. -/
structure Reaction where
  text : String
  key : MessageKey
  sender_timestamp_ms : Option String
  read : Option Bool
deriving DecidableEq

/-- The `MessagesReactionDataEntry` model. -/
structure MessagesReactionDataEntry where
  key : MessageKey
  reaction : Reaction
deriving DecidableEq

/-- The `Receipt` model. -/
structure Receipt where
  user_jid : String
  status : String
  t : Option Int
deriving DecidableEq

/-- The `MessageReceiptUpdateDataEntry` model. -/
structure MessageReceiptUpdateDataEntry where
  key : MessageKey
  receipt : Receipt
deriving DecidableEq

/-- The `MessageSentData` model. -/
structure MessageSentData where
  key : MessageKey
  message : Option MessageContent
  status : Option String

/-- The six values of the `status` literal of `SessionStatusData`. -/
def sessionStatusValues : List String :=
  ["CONNECTED", "DISCONNECTED", "NEED_SCAN", "CONNECTING", "LOGGED_OUT", "EXPIRED"]

/-- The `SessionStatusData` model; `status` is one of
`sessionStatusValues`. -/
structure SessionStatusData where
  status : String
  session_id : Option String
  reason : Option String
deriving DecidableEq

/-- The `QrCodeUpdatedData` model. -/
structure QrCodeUpdatedData where
  qr : String
  session_id : Option String
deriving DecidableEq

/-- The generic envelope `BaseWebhookEvent`: `event` tag, optional
`timestamp`, the payload `data`, and optional `session_id`
(wire `sessionId`). -/
structure BaseWebhookEvent (DataType : Type) where
  event : WasenderWebhookEventType
  timestamp : Option Int
  data : DataType
  session_id : Option String

/-- The discriminated union `WasenderWebhookEvent` of the 16 specific
event types, each an instance of the generic envelope at its payload
shape. -/
inductive WasenderWebhookEvent where
  | ChatsUpsertEvent (e : BaseWebhookEvent (List ChatEntry))
  | ChatsUpdateEvent (e : BaseWebhookEvent (List ChatEntry))
  | ChatsDeleteEvent (e : BaseWebhookEvent (List String))
  | GroupsUpsertEvent (e : BaseWebhookEvent (List GroupMetadata))
  | GroupsUpdateEvent (e : BaseWebhookEvent (List GroupMetadata))
  | GroupParticipantsUpdateEvent (e : BaseWebhookEvent GroupParticipantsUpdateData)
  | ContactsUpsertEvent (e : BaseWebhookEvent (List ContactEntry))
  | ContactsUpdateEvent (e : BaseWebhookEvent (List ContactEntry))
  | MessagesUpsertEvent (e : BaseWebhookEvent MessagesUpsertData)
  | MessagesUpdateEvent (e : BaseWebhookEvent (List MessagesUpdateDataEntry))
  | MessagesDeleteEvent (e : BaseWebhookEvent MessagesDeleteData)
  | MessagesReactionEvent (e : BaseWebhookEvent (List MessagesReactionDataEntry))
  | MessageReceiptUpdateEvent (e : BaseWebhookEvent (List MessageReceiptUpdateDataEntry))
  | MessageSentEvent (e : BaseWebhookEvent MessageSentData)
  | SessionStatusEvent (e : BaseWebhookEvent SessionStatusData)
  | QrCodeUpdatedEvent (e : BaseWebhookEvent QrCodeUpdatedData)

/-- The event tag carried by a parsed union member. -/
def WasenderWebhookEvent.eventType : WasenderWebhookEvent → WasenderWebhookEventType
  | .ChatsUpsertEvent e => e.event
  | .ChatsUpdateEvent e => e.event
  | .ChatsDeleteEvent e => e.event
  | .GroupsUpsertEvent e => e.event
  | .GroupsUpdateEvent e => e.event
  | .GroupParticipantsUpdateEvent e => e.event
  | .ContactsUpsertEvent e => e.event
  | .ContactsUpdateEvent e => e.event
  | .MessagesUpsertEvent e => e.event
  | .MessagesUpdateEvent e => e.event
  | .MessagesDeleteEvent e => e.event
  | .MessagesReactionEvent e => e.event
  | .MessageReceiptUpdateEvent e => e.event
  | .MessageSentEvent e => e.event
  | .SessionStatusEvent e => e.event
  | .QrCodeUpdatedEvent e => e.event

/-!
Parsing.  Modelled from the spec: the source module only declares the
pydantic models; the parse entry point (spec §4.2,
`parse(raw_json) -> Result<WasenderWebhookEvent, ParseError>`) and the
two error kinds (spec §7) are not in the sources.  The decoder of each
model below follows that model's declaration: required fields must be
present with the declared type, optional fields default to `none` when
absent or `null`, aliased fields are read from their wire key, extra
keys are ignored, and fields are processed in declaration order with the
first failure reported. -/
inductive ParseError where
  | UnknownEventType
  | SchemaValidationError (path : String)
deriving DecidableEq

/-- Look up a key in a JSON object body (first occurrence). -/
def getField (o : JObj) (k : String) : Option Json :=
  match o with
  | [] => none
  | (k2, v) :: rest => if k2 = k then some v else getField rest k

/-- Extend an error path with a field name. -/
def joinPath (p k : String) : String :=
  if p = "" then k else p ++ "." ++ k

/-- Decode a JSON string. -/
def decodeStr (path : String) : Json → Except ParseError String
  | .str s => .ok s
  | _ => .error (.SchemaValidationError path)

/-- Decode a JSON integer. -/
def decodeInt (path : String) : Json → Except ParseError Int
  | .num n => .ok n
  | _ => .error (.SchemaValidationError path)

/-- Decode a JSON boolean. -/
def decodeBool (path : String) : Json → Except ParseError Bool
  | .bool b => .ok b
  | _ => .error (.SchemaValidationError path)

/-- Decode a JSON object into its body (used both for nested models and
for the opaque `Dict[str, Any]` fields). -/
def decodeObj (path : String) : Json → Except ParseError JObj
  | .obj o => .ok o
  | _ => .error (.SchemaValidationError path)

/-- A required field: absent, or present with the wrong shape, is a
schema violation at the field's path. -/
def reqField (path : String) (o : JObj) (k : String)
    (dec : String → Json → Except ParseError A) : Except ParseError A :=
  match getField o k with
  | some v => dec (joinPath path k) v
  | none => .error (.SchemaValidationError (joinPath path k))

/-- An optional field: absent or `null` yields `none`; present with the
wrong shape is a schema violation. -/
def optField (path : String) (o : JObj) (k : String)
    (dec : String → Json → Except ParseError A) : Except ParseError (Option A) :=
  match getField o k with
  | none => .ok none
  | some .null => .ok none
  | some v => (dec (joinPath path k) v).map some

/-- Decode the elements of a JSON array, indexing the error path. -/
def decodeArrElems (path : String) (dec : String → Json → Except ParseError A) :
    Nat → List Json → Except ParseError (List A)
  | _, [] => .ok []
  | i, v :: rest => do
    let a ← dec (joinPath path (toString i)) v
    let as ← decodeArrElems path dec (i + 1) rest
    return a :: as

/-- Decode a JSON array as an ordered sequence. -/
def decodeList (dec : String → Json → Except ParseError A) (path : String) :
    Json → Except ParseError (List A)
  | .arr xs => decodeArrElems path dec 0 xs
  | _ => .error (.SchemaValidationError path)

/-- Decode a `MessageKey`. -/
def decodeMessageKey (path : String) (j : Json) : Except ParseError MessageKey := do
  let o ← decodeObj path j
  let idv ← reqField path o "id" decodeStr
  let fm ← reqField path o "fromMe" decodeBool
  let rj ← reqField path o "remoteJid" decodeStr
  let pt ← optField path o "participant" decodeStr
  return { id := idv, from_me := fm, remote_jid := rj, participant := pt }

/-- Decode a `ChatEntry`. -/
def decodeChatEntry (path : String) (j : Json) : Except ParseError ChatEntry := do
  let o ← decodeObj path j
  let idv ← reqField path o "id" decodeStr
  let nm ← optField path o "name" decodeStr
  let ct ← optField path o "conversationTimestamp" decodeInt
  let uc ← optField path o "unreadCount" decodeInt
  let mu ← optField path o "muteEndTime" decodeInt
  let sp ← optField path o "isSpam" decodeBool
  return { id := idv, name := nm, conversation_timestamp := ct,
           unread_count := uc, mute_end_time := mu, is_spam := sp }

/-- Decode a `GroupParticipant` (modelled from the spec: at least an
identifier field). -/
def decodeGroupParticipant (path : String) (j : Json) : Except ParseError GroupParticipant := do
  let o ← decodeObj path j
  let idv ← reqField path o "id" decodeStr
  return { id := idv }

/-- Decode a `GroupMetadata`. -/
def decodeGroupMetadata (path : String) (j : Json) : Except ParseError GroupMetadata := do
  let o ← decodeObj path j
  let jd ← reqField path o "jid" decodeStr
  let sb ← reqField path o "subject" decodeStr
  let cr ← optField path o "creation" decodeInt
  let ow ← optField path o "owner" decodeStr
  let ds ← optField path o "desc" decodeStr
  let ps ← optField path o "participants" (decodeList decodeGroupParticipant)
  let an ← optField path o "announce" decodeBool
  let rs ← optField path o "restrict" decodeBool
  return { jid := jd, subject := sb, creation := cr, owner := ow, desc := ds,
           participants := ps, announce := an, restrict := rs }

/-- Decode one element of `GroupParticipantsUpdateData.participants`: a
plain id string, or a full `GroupParticipant` record. -/
def decodeParticipantEntry (path : String) (j : Json) :
    Except ParseError (String ⊕ GroupParticipant) :=
  match j with
  | .str s => .ok (.inl s)
  | j2 => (decodeGroupParticipant path j2).map .inr

/-- Decode the `action` literal of `GroupParticipantsUpdateData`. -/
def decodeAction (path : String) (j : Json) : Except ParseError String :=
  match j with
  | .str s =>
    match actionValues.contains s with
    | true => .ok s
    | false => .error (.SchemaValidationError path)
  | _ => .error (.SchemaValidationError path)

/-- Decode a `GroupParticipantsUpdateData`. -/
def decodeGroupParticipantsUpdateData (path : String) (j : Json) :
    Except ParseError GroupParticipantsUpdateData := do
  let o ← decodeObj path j
  let jd ← reqField path o "jid" decodeStr
  let ps ← reqField path o "participants" (decodeList decodeParticipantEntry)
  let ac ← reqField path o "action" decodeAction
  return { jid := jd, participants := ps, action := ac }

/-- Decode a `ContactEntry`. -/
def decodeContactEntry (path : String) (j : Json) : Except ParseError ContactEntry := do
  let o ← decodeObj path j
  let jd ← reqField path o "jid" decodeStr
  let nm ← optField path o "name" decodeStr
  let nt ← optField path o "notify" decodeStr
  let vn ← optField path o "verifiedName" decodeStr
  let st ← optField path o "status" decodeStr
  let iu ← optField path o "imgUrl" decodeStr
  return { jid := jd, name := nm, notify := nt, verified_name := vn,
           status := st, img_url := iu }

/-- Decode a `MessageContent`. -/
def decodeMessageContent (path : String) (j : Json) : Except ParseError MessageContent := do
  let o ← decodeObj path j
  let cv ← optField path o "conversation" decodeStr
  let im ← optField path o "imageMessage" decodeObj
  let vm ← optField path o "videoMessage" decodeObj
  let dm ← optField path o "documentMessage" decodeObj
  let am ← optField path o "audioMessage" decodeObj
  let sm ← optField path o "stickerMessage" decodeObj
  let cm ← optField path o "contactMessage" decodeObj
  let lm ← optField path o "locationMessage" decodeObj
  return { conversation := cv, image_message := im, video_message := vm,
           document_message := dm, audio_message := am, sticker_message := sm,
           contact_message := cm, location_message := lm }

/-- Decode a `MessagesUpsertData`. -/
def decodeMessagesUpsertData (path : String) (j : Json) :
    Except ParseError MessagesUpsertData := do
  let o ← decodeObj path j
  let ky ← reqField path o "key" decodeMessageKey
  let ms ← optField path o "message" decodeMessageContent
  let pn ← optField path o "pushName" decodeStr
  let mt ← optField path o "messageTimestamp" decodeInt
  return { key := ky, message := ms, push_name := pn, message_timestamp := mt }

/-- Decode a `MessageUpdate`. -/
def decodeMessageUpdate (path : String) (j : Json) : Except ParseError MessageUpdate := do
  let o ← decodeObj path j
  let st ← reqField path o "status" decodeStr
  return { status := st }

/-- Decode a `MessagesUpdateDataEntry`. -/
def decodeMessagesUpdateDataEntry (path : String) (j : Json) :
    Except ParseError MessagesUpdateDataEntry := do
  let o ← decodeObj path j
  let ky ← reqField path o "key" decodeMessageKey
  let up ← reqField path o "update" decodeMessageUpdate
  return { key := ky, update := up }

/-- Decode a `MessagesDeleteData`. -/
def decodeMessagesDeleteData (path : String) (j : Json) :
    Except ParseError MessagesDeleteData := do
  let o ← decodeObj path j
  let ks ← reqField path o "keys" (decodeList decodeMessageKey)
  return { keys := ks }

/-- Decode a `Reaction`. -/
def decodeReaction (path : String) (j : Json) : Except ParseError Reaction := do
  let o ← decodeObj path j
  let tx ← reqField path o "text" decodeStr
  let ky ← reqField path o "key" decodeMessageKey
  let ts ← optField path o "senderTimestampMs" decodeStr
  let rd ← optField path o "read" decodeBool
  return { text := tx, key := ky, sender_timestamp_ms := ts, read := rd }

/-- Decode a `MessagesReactionDataEntry`. -/
def decodeMessagesReactionDataEntry (path : String) (j : Json) :
    Except ParseError MessagesReactionDataEntry := do
  let o ← decodeObj path j
  let ky ← reqField path o "key" decodeMessageKey
  let rc ← reqField path o "reaction" decodeReaction
  return { key := ky, reaction := rc }

/-- Decode a `Receipt`. -/
def decodeReceipt (path : String) (j : Json) : Except ParseError Receipt := do
  let o ← decodeObj path j
  let uj ← reqField path o "userJid" decodeStr
  let st ← reqField path o "status" decodeStr
  let tv ← optField path o "t" decodeInt
  return { user_jid := uj, status := st, t := tv }

/-- Decode a `MessageReceiptUpdateDataEntry`. -/
def decodeMessageReceiptUpdateDataEntry (path : String) (j : Json) :
    Except ParseError MessageReceiptUpdateDataEntry := do
  let o ← decodeObj path j
  let ky ← reqField path o "key" decodeMessageKey
  let rc ← reqField path o "receipt" decodeReceipt
  return { key := ky, receipt := rc }

/-- Decode a `MessageSentData`. -/
def decodeMessageSentData (path : String) (j : Json) :
    Except ParseError MessageSentData := do
  let o ← decodeObj path j
  let ky ← reqField path o "key" decodeMessageKey
  let ms ← optField path o "message" decodeMessageContent
  let st ← optField path o "status" decodeStr
  return { key := ky, message := ms, status := st }

/-- Decode the `status` literal of `SessionStatusData`. -/
def decodeSessionStatus (path : String) (j : Json) : Except ParseError String :=
  match j with
  | .str s =>
    match sessionStatusValues.contains s with
    | true => .ok s
    | false => .error (.SchemaValidationError path)
  | _ => .error (.SchemaValidationError path)

/-- Decode a `SessionStatusData`. -/
def decodeSessionStatusData (path : String) (j : Json) :
    Except ParseError SessionStatusData := do
  let o ← decodeObj path j
  let st ← reqField path o "status" decodeSessionStatus
  let sid ← optField path o "sessionId" decodeStr
  let rn ← optField path o "reason" decodeStr
  return { status := st, session_id := sid, reason := rn }

/-- Decode a `QrCodeUpdatedData`. -/
def decodeQrCodeUpdatedData (path : String) (j : Json) :
    Except ParseError QrCodeUpdatedData := do
  let o ← decodeObj path j
  let qr ← reqField path o "qr" decodeStr
  let sid ← optField path o "sessionId" decodeStr
  return { qr := qr, session_id := sid }

/-- Decode the envelope fields shared by every event type: optional
`timestamp`, required `data` (decoded by the tag's payload decoder), and
optional `session_id` read from the wire key `sessionId`. -/
def decodeEnvelope (t : WasenderWebhookEventType) (o : JObj)
    (decData : String → Json → Except ParseError D) :
    Except ParseError (BaseWebhookEvent D) := do
  let ts ← optField "" o "timestamp" decodeInt
  let d ← reqField "" o "data" decData
  let sid ← optField "" o "sessionId" decodeStr
  return { event := t, timestamp := ts, data := d, session_id := sid }

/-- The raw string under the top-level `event` key, when the input is an
object and that key holds a string. -/
def eventTag : Json → Option String
  | .obj o =>
    match getField o "event" with
    | some (.str s) => some s
    | _ => none
  | _ => none

/-- Dispatch on a recognised tag: decode the envelope with the payload
shape of that tag and wrap it in the matching union member. -/
def parseWithTag (t : WasenderWebhookEventType) (o : JObj) :
    Except ParseError WasenderWebhookEvent :=
  match t with
  | .CHATS_UPSERT => (decodeEnvelope t o (decodeList decodeChatEntry)).map .ChatsUpsertEvent
  | .CHATS_UPDATE => (decodeEnvelope t o (decodeList decodeChatEntry)).map .ChatsUpdateEvent
  | .CHATS_DELETE => (decodeEnvelope t o (decodeList decodeStr)).map .ChatsDeleteEvent
  | .GROUPS_UPSERT => (decodeEnvelope t o (decodeList decodeGroupMetadata)).map .GroupsUpsertEvent
  | .GROUPS_UPDATE => (decodeEnvelope t o (decodeList decodeGroupMetadata)).map .GroupsUpdateEvent
  | .GROUP_PARTICIPANTS_UPDATE =>
    (decodeEnvelope t o decodeGroupParticipantsUpdateData).map .GroupParticipantsUpdateEvent
  | .CONTACTS_UPSERT => (decodeEnvelope t o (decodeList decodeContactEntry)).map .ContactsUpsertEvent
  | .CONTACTS_UPDATE => (decodeEnvelope t o (decodeList decodeContactEntry)).map .ContactsUpdateEvent
  | .MESSAGES_UPSERT => (decodeEnvelope t o decodeMessagesUpsertData).map .MessagesUpsertEvent
  | .MESSAGES_UPDATE =>
    (decodeEnvelope t o (decodeList decodeMessagesUpdateDataEntry)).map .MessagesUpdateEvent
  | .MESSAGES_DELETE => (decodeEnvelope t o decodeMessagesDeleteData).map .MessagesDeleteEvent
  | .MESSAGES_REACTION =>
    (decodeEnvelope t o (decodeList decodeMessagesReactionDataEntry)).map .MessagesReactionEvent
  | .MESSAGE_RECEIPT_UPDATE =>
    (decodeEnvelope t o (decodeList decodeMessageReceiptUpdateDataEntry)).map .MessageReceiptUpdateEvent
  | .MESSAGE_SENT => (decodeEnvelope t o decodeMessageSentData).map .MessageSentEvent
  | .SESSION_STATUS => (decodeEnvelope t o decodeSessionStatusData).map .SessionStatusEvent
  | .QRCODE_UPDATED => (decodeEnvelope t o decodeQrCodeUpdatedData).map .QrCodeUpdatedEvent

/-- Modelled from the spec: the parse entry point.  Read the `event`
field first; when it is absent or not a recognised tag of the closed
enumeration, fail with `UnknownEventType`; otherwise validate the
envelope and the payload shape keyed by the tag. -/
def parseWebhookEvent (j : Json) : Except ParseError WasenderWebhookEvent :=
  match (eventTag j).bind WasenderWebhookEventType.fromWire with
  | none => .error .UnknownEventType
  | some t =>
    match j with
    | .obj o => parseWithTag t o
    | _ => .error .UnknownEventType

/-!
Serialisation: each model is written back by wire name (aliases applied)
in field declaration order, omitting absent optional fields, so that a
parse of well-formed input re-serialises losslessly. -/

/-- The entry an optional field contributes to a serialised object:
nothing when absent, its wire key and value when present. -/
def optEntry (k : String) (v : Option A) (f : A → Json) : JObj :=
  match v with
  | none => []
  | some a => [(k, f a)]

/-- Serialise a `MessageKey`. -/
def serializeMessageKey (m : MessageKey) : Json :=
  .obj ([("id", .str m.id), ("fromMe", .bool m.from_me), ("remoteJid", .str m.remote_jid)]
    ++ optEntry "participant" m.participant .str)

/-- Serialise a `ChatEntry`. -/
def serializeChatEntry (c : ChatEntry) : Json :=
  .obj ([("id", .str c.id)]
    ++ optEntry "name" c.name .str
    ++ optEntry "conversationTimestamp" c.conversation_timestamp .num
    ++ optEntry "unreadCount" c.unread_count .num
    ++ optEntry "muteEndTime" c.mute_end_time .num
    ++ optEntry "isSpam" c.is_spam .bool)

/-- Serialise a `GroupParticipant`. -/
def serializeGroupParticipant (p : GroupParticipant) : Json :=
  .obj [("id", .str p.id)]

/-- Serialise a `GroupMetadata`. -/
def serializeGroupMetadata (g : GroupMetadata) : Json :=
  .obj ([("jid", .str g.jid), ("subject", .str g.subject)]
    ++ optEntry "creation" g.creation .num
    ++ optEntry "owner" g.owner .str
    ++ optEntry "desc" g.desc .str
    ++ optEntry "participants" g.participants (fun ps => .arr (ps.map serializeGroupParticipant))
    ++ optEntry "announce" g.announce .bool
    ++ optEntry "restrict" g.restrict .bool)

/-- Serialise one participant entry of `GroupParticipantsUpdateData`. -/
def serializeParticipantEntry : String ⊕ GroupParticipant → Json
  | .inl s => .str s
  | .inr p => serializeGroupParticipant p

/-- Serialise a `GroupParticipantsUpdateData`. -/
def serializeGroupParticipantsUpdateData (g : GroupParticipantsUpdateData) : Json :=
  .obj [("jid", .str g.jid),
        ("participants", .arr (g.participants.map serializeParticipantEntry)),
        ("action", .str g.action)]

/-- Serialise a `ContactEntry`. -/
def serializeContactEntry (c : ContactEntry) : Json :=
  .obj ([("jid", .str c.jid)]
    ++ optEntry "name" c.name .str
    ++ optEntry "notify" c.notify .str
    ++ optEntry "verifiedName" c.verified_name .str
    ++ optEntry "status" c.status .str
    ++ optEntry "imgUrl" c.img_url .str)

/-- Serialise a `MessageContent`. -/
def serializeMessageContent (m : MessageContent) : Json :=
  .obj (optEntry "conversation" m.conversation .str
    ++ optEntry "imageMessage" m.image_message .obj
    ++ optEntry "videoMessage" m.video_message .obj
    ++ optEntry "documentMessage" m.document_message .obj
    ++ optEntry "audioMessage" m.audio_message .obj
    ++ optEntry "stickerMessage" m.sticker_message .obj
    ++ optEntry "contactMessage" m.contact_message .obj
    ++ optEntry "locationMessage" m.location_message .obj)

/-- Serialise a `MessagesUpsertData`. -/
def serializeMessagesUpsertData (m : MessagesUpsertData) : Json :=
  .obj ([("key", serializeMessageKey m.key)]
    ++ optEntry "message" m.message serializeMessageContent
    ++ optEntry "pushName" m.push_name .str
    ++ optEntry "messageTimestamp" m.message_timestamp .num)

/-- Serialise a `MessageUpdate`. -/
def serializeMessageUpdate (m : MessageUpdate) : Json :=
  .obj [("status", .str m.status)]

/-- Serialise a `MessagesUpdateDataEntry`. -/
def serializeMessagesUpdateDataEntry (m : MessagesUpdateDataEntry) : Json :=
  .obj [("key", serializeMessageKey m.key), ("update", serializeMessageUpdate m.update)]

/-- Serialise a `MessagesDeleteData`. -/
def serializeMessagesDeleteData (m : MessagesDeleteData) : Json :=
  .obj [("keys", .arr (m.keys.map serializeMessageKey))]

/-- Serialise a `Reaction`. -/
def serializeReaction (r : Reaction) : Json :=
  .obj ([("text", .str r.text), ("key", serializeMessageKey r.key)]
    ++ optEntry "senderTimestampMs" r.sender_timestamp_ms .str
    ++ optEntry "read" r.read .bool)

/-- Serialise a `MessagesReactionDataEntry`. -/
def serializeMessagesReactionDataEntry (m : MessagesReactionDataEntry) : Json :=
  .obj [("key", serializeMessageKey m.key), ("reaction", serializeReaction m.reaction)]

/-- Serialise a `Receipt`. -/
def serializeReceipt (r : Receipt) : Json :=
  .obj ([("userJid", .str r.user_jid), ("status", .str r.status)]
    ++ optEntry "t" r.t .num)

/-- Serialise a `MessageReceiptUpdateDataEntry`. -/
def serializeMessageReceiptUpdateDataEntry (m : MessageReceiptUpdateDataEntry) : Json :=
  .obj [("key", serializeMessageKey m.key), ("receipt", serializeReceipt m.receipt)]

/-- Serialise a `MessageSentData`. -/
def serializeMessageSentData (m : MessageSentData) : Json :=
  .obj ([("key", serializeMessageKey m.key)]
    ++ optEntry "message" m.message serializeMessageContent
    ++ optEntry "status" m.status .str)

/-- Serialise a `SessionStatusData`. -/
def serializeSessionStatusData (s : SessionStatusData) : Json :=
  .obj ([("status", .str s.status)]
    ++ optEntry "sessionId" s.session_id .str
    ++ optEntry "reason" s.reason .str)

/-- Serialise a `QrCodeUpdatedData`. -/
def serializeQrCodeUpdatedData (q : QrCodeUpdatedData) : Json :=
  .obj ([("qr", .str q.qr)] ++ optEntry "sessionId" q.session_id .str)

/-- Serialise the envelope: `event`, optional `timestamp`, `data`,
optional `sessionId`, in declaration order. -/
def serializeEnvelope (e : BaseWebhookEvent D) (serData : D → Json) : Json :=
  .obj ([("event", .str e.event.toWire)]
    ++ optEntry "timestamp" e.timestamp .num
    ++ [("data", serData e.data)]
    ++ optEntry "sessionId" e.session_id .str)

/-- Serialise a parsed union member back to wire JSON. -/
def serializeWebhookEvent : WasenderWebhookEvent → Json
  | .ChatsUpsertEvent e => serializeEnvelope e (fun xs => .arr (xs.map serializeChatEntry))
  | .ChatsUpdateEvent e => serializeEnvelope e (fun xs => .arr (xs.map serializeChatEntry))
  | .ChatsDeleteEvent e => serializeEnvelope e (fun xs => .arr (xs.map .str))
  | .GroupsUpsertEvent e => serializeEnvelope e (fun xs => .arr (xs.map serializeGroupMetadata))
  | .GroupsUpdateEvent e => serializeEnvelope e (fun xs => .arr (xs.map serializeGroupMetadata))
  | .GroupParticipantsUpdateEvent e => serializeEnvelope e serializeGroupParticipantsUpdateData
  | .ContactsUpsertEvent e => serializeEnvelope e (fun xs => .arr (xs.map serializeContactEntry))
  | .ContactsUpdateEvent e => serializeEnvelope e (fun xs => .arr (xs.map serializeContactEntry))
  | .MessagesUpsertEvent e => serializeEnvelope e serializeMessagesUpsertData
  | .MessagesUpdateEvent e =>
    serializeEnvelope e (fun xs => .arr (xs.map serializeMessagesUpdateDataEntry))
  | .MessagesDeleteEvent e => serializeEnvelope e serializeMessagesDeleteData
  | .MessagesReactionEvent e =>
    serializeEnvelope e (fun xs => .arr (xs.map serializeMessagesReactionDataEntry))
  | .MessageReceiptUpdateEvent e =>
    serializeEnvelope e (fun xs => .arr (xs.map serializeMessageReceiptUpdateDataEntry))
  | .MessageSentEvent e => serializeEnvelope e serializeMessageSentData
  | .SessionStatusEvent e => serializeEnvelope e serializeSessionStatusData
  | .QrCodeUpdatedEvent e => serializeEnvelope e serializeQrCodeUpdatedData

/-!
Subscript access.  `BaseWebhookEvent.__getitem__` first tries attribute
lookup by the given key; when that fails it scans the declared fields
for one whose alias equals the key; otherwise it raises `KeyError`.  The
instance's data attributes are the four declared fields, and the only
declared alias is `sessionId` on `session_id`; `KeyError` is modelled as
`none`. -/
inductive FieldValue (DataType : Type) where
  | eventVal (t : WasenderWebhookEventType)
  | timestampVal (t : Option Int)
  | dataVal (d : DataType)
  | sessionIdVal (s : Option String)

/-- Embedding of `BaseWebhookEvent.__getitem__`: attribute lookup by
field name first, then the alias scan over `model_fields`, then
`KeyError` (`none`). -/
def BaseWebhookEvent.getItem (e : BaseWebhookEvent D) (key : String) :
    Option (FieldValue D) :=
  if key = "event" then some (.eventVal e.event)
  else if key = "timestamp" then some (.timestampVal e.timestamp)
  else if key = "data" then some (.dataVal e.data)
  else if key = "session_id" then some (.sessionIdVal e.session_id)
  else if key = "sessionId" then some (.sessionIdVal e.session_id)
  else none

/-- The top-level `timestamp` field of a payload is well formed: absent,
`null`, or an integer. -/
def timestampFieldOk (o : JObj) : Prop :=
  getField o "timestamp" = none ∨ getField o "timestamp" = some .null
    ∨ ∃ n : Int, getField o "timestamp" = some (.num n)

/-!
Minimal valid wire samples, one per event tag, used to check the parse /
re-serialise round trip.  Keys appear in the order the serialiser emits
them (field declaration order, aliases applied). -/
def sampleChatsUpsert : Json :=
  .obj [("event", .str "chats.upsert"),
        ("data", .arr [.obj [("id", .str "c1")]])]

/-- Minimal `chats.update` sample. -/
def sampleChatsUpdate : Json :=
  .obj [("event", .str "chats.update"),
        ("data", .arr [.obj [("id", .str "c2"), ("name", .str "N")]])]

/-- Minimal `chats.delete` sample. -/
def sampleChatsDelete : Json :=
  .obj [("event", .str "chats.delete"),
        ("data", .arr [.str "1@s.whatsapp.net"])]

/-- Minimal `groups.upsert` sample. -/
def sampleGroupsUpsert : Json :=
  .obj [("event", .str "groups.upsert"),
        ("data", .arr [.obj [("jid", .str "g1"), ("subject", .str "S")]])]

/-- Minimal `groups.update` sample, exercising the participants list. -/
def sampleGroupsUpdate : Json :=
  .obj [("event", .str "groups.update"),
        ("data", .arr [.obj [("jid", .str "g2"), ("subject", .str "T"),
          ("participants", .arr [.obj [("id", .str "p1")]])]])]

/-- Minimal `group-participants.update` sample, with one plain-string
participant and one record participant. -/
def sampleGroupParticipantsUpdate : Json :=
  .obj [("event", .str "group-participants.update"),
        ("data", .obj [("jid", .str "g1"),
          ("participants", .arr [.str "p1", .obj [("id", .str "p2")]]),
          ("action", .str "add")])]

/-- Minimal `contacts.upsert` sample. -/
def sampleContactsUpsert : Json :=
  .obj [("event", .str "contacts.upsert"),
        ("data", .arr [.obj [("jid", .str "u1")]])]

/-- Minimal `contacts.update` sample. -/
def sampleContactsUpdate : Json :=
  .obj [("event", .str "contacts.update"),
        ("data", .arr [.obj [("jid", .str "u2"), ("name", .str "Bob")]])]

/-- A `messages.upsert` sample also exercising the envelope `timestamp`
and `sessionId` fields and a `conversation` message body. -/
def sampleMessagesUpsert : Json :=
  .obj [("event", .str "messages.upsert"),
        ("timestamp", .num 1700000000),
        ("data", .obj [("key", .obj [("id", .str "m1"), ("fromMe", .bool false),
            ("remoteJid", .str "r@s.whatsapp.net")]),
          ("message", .obj [("conversation", .str "hi")]),
          ("pushName", .str "P")]),
        ("sessionId", .str "sess")]

/-- Minimal `messages.update` sample. -/
def sampleMessagesUpdate : Json :=
  .obj [("event", .str "messages.update"),
        ("data", .arr [.obj [("key", .obj [("id", .str "m2"), ("fromMe", .bool true),
            ("remoteJid", .str "r2")]),
          ("update", .obj [("status", .str "READ")])]])]

/-- Minimal `messages.delete` sample. -/
def sampleMessagesDelete : Json :=
  .obj [("event", .str "messages.delete"),
        ("data", .obj [("keys", .arr [.obj [("id", .str "m3"), ("fromMe", .bool false),
          ("remoteJid", .str "r3")]])])]

/-- Minimal `messages.reaction` sample. -/
def sampleMessagesReaction : Json :=
  .obj [("event", .str "messages.reaction"),
        ("data", .arr [.obj [("key", .obj [("id", .str "m4"), ("fromMe", .bool false),
            ("remoteJid", .str "r4")]),
          ("reaction", .obj [("text", .str "+1"),
            ("key", .obj [("id", .str "m4"), ("fromMe", .bool false),
              ("remoteJid", .str "r4")])])]])]

/-- Minimal `message-receipt.update` sample. -/
def sampleMessageReceiptUpdate : Json :=
  .obj [("event", .str "message-receipt.update"),
        ("data", .arr [.obj [("key", .obj [("id", .str "m5"), ("fromMe", .bool true),
            ("remoteJid", .str "r5")]),
          ("receipt", .obj [("userJid", .str "u@s.whatsapp.net"),
            ("status", .str "read")])]])]

/-- Minimal `message.sent` sample. -/
def sampleMessageSent : Json :=
  .obj [("event", .str "message.sent"),
        ("data", .obj [("key", .obj [("id", .str "m6"), ("fromMe", .bool true),
          ("remoteJid", .str "r6")]),
          ("status", .str "sent")])]

/-- Minimal `session.status` sample. -/
def sampleSessionStatus : Json :=
  .obj [("event", .str "session.status"),
        ("data", .obj [("status", .str "CONNECTED"), ("sessionId", .str "s1")])]

/-- Minimal `qrcode.updated` sample. -/
def sampleQrcodeUpdated : Json :=
  .obj [("event", .str "qrcode.updated"),
        ("data", .obj [("qr", .str "abc"), ("sessionId", .str "s1")])]

/-- The `qrcode.updated` sample with unrecognised extra fields added at
the top level and inside the data record. -/
def sampleQrcodeUpdatedExtra : Json :=
  .obj [("event", .str "qrcode.updated"),
        ("data", .obj [("qr", .str "abc"), ("sessionId", .str "s1"), ("zzz", .bool true)]),
        ("foo", .str "bar")]

/-- A minimal `messages.upsert` sample (key fields only). -/
def sampleMessagesUpsertMin : Json :=
  .obj [("event", .str "messages.upsert"),
        ("data", .obj [("key", .obj [("id", .str "m1"), ("fromMe", .bool false),
          ("remoteJid", .str "r")])])]

/-- The minimal `messages.upsert` sample with an unrecognised extra
field inside the nested key record. -/
def sampleMessagesUpsertMinExtra : Json :=
  .obj [("event", .str "messages.upsert"),
        ("data", .obj [("key", .obj [("id", .str "m1"), ("fromMe", .bool false),
          ("remoteJid", .str "r"), ("extra", .num 42)])])]

/-!
Theorems.
-/

/-- Claim C1: for every pair of inputs, `verify_wasender_webhook_signature`
returns false when either input is absent (`none`) or the empty string,
and otherwise returns true iff the two strings are exactly equal; in
particular it accepts every non-empty string compared with itself and
rejects every pair of distinct strings. -/
theorem c1_verify_signature_equality :
    (∀ rs cs : Option String,
      (rs = none ∨ rs = some "" ∨ cs = none ∨ cs = some "") →
      verify_wasender_webhook_signature rs cs = false)
    ∧ (∀ s t : String, s ≠ "" → t ≠ "" →
      (verify_wasender_webhook_signature (some s) (some t) = true ↔ s = t))
    ∧ (∀ s : String, s ≠ "" →
      verify_wasender_webhook_signature (some s) (some s) = true)
    ∧ (∀ s t : String, s ≠ t →
      verify_wasender_webhook_signature (some s) (some t) = false) := by
  refine ⟨?_, ?_, ?_, ?_⟩
  · rintro rs cs (rfl | rfl | rfl | rfl) <;>
      simp [verify_wasender_webhook_signature, pyTruthy]
  · intro s t h1 h2
    simp [verify_wasender_webhook_signature, pyTruthy, h1, h2]
  · intro s h
    simp [verify_wasender_webhook_signature, pyTruthy, h]
  · intro s t h
    by_cases h1 : s = ""
    · subst h1
      simp [verify_wasender_webhook_signature, pyTruthy]
    · by_cases h2 : t = ""
      · subst h2
        simp [verify_wasender_webhook_signature, pyTruthy]
      · simp [verify_wasender_webhook_signature, pyTruthy, h1, h2, h]

/-- Witness for C1 at concrete inputs. -/
theorem c1_verify_signature_equality_witness :
    verify_wasender_webhook_signature (some "a") (some "a") = true
    ∧ verify_wasender_webhook_signature none (some "x") = false
    ∧ verify_wasender_webhook_signature (some "a") (some "b") = false :=
  ⟨c1_verify_signature_equality.2.2.1 "a" (by decide),
   c1_verify_signature_equality.1 none (some "x") (Or.inl rfl),
   c1_verify_signature_equality.2.2.2 "a" "b" (by decide)⟩

/-- Claim C2: `verify_wasender_webhook_signature` is total and pure: for
every input pair, including absent arguments, it is defined and returns a
boolean, and missing inputs yield false rather than an error.  Totality
and absence of exceptions are intrinsic to the embedding: the function is
a plain total function into `Bool`, not an `Except`. -/
theorem c2_verify_total :
    ∀ rs cs : Option String,
      (verify_wasender_webhook_signature rs cs = true
        ∨ verify_wasender_webhook_signature rs cs = false)
      ∧ (rs = none → verify_wasender_webhook_signature rs cs = false)
      ∧ (cs = none → verify_wasender_webhook_signature rs cs = false) := by
  intro rs cs
  refine ⟨?_, ?_, ?_⟩
  · cases h : verify_wasender_webhook_signature rs cs
    · exact Or.inr rfl
    · exact Or.inl rfl
  · rintro rfl
    simp [verify_wasender_webhook_signature, pyTruthy]
  · rintro rfl
    simp [verify_wasender_webhook_signature, pyTruthy]

/-- Witness for C2 at concrete inputs. -/
theorem c2_verify_total_witness :
    verify_wasender_webhook_signature none (some "x") = false
    ∧ verify_wasender_webhook_signature (some "x") none = false :=
  ⟨(c2_verify_total none (some "x")).2.1 rfl,
   (c2_verify_total (some "x") none).2.2 rfl⟩

/-- Bind of a success in the `Except ParseError` monad. -/
theorem except_ok_bind (a : A) (f : A → Except ParseError B) :
    (Except.ok a : Except ParseError A) >>= f = f a := rfl

/-- Bind of a failure in the `Except ParseError` monad: the error
propagates. -/
theorem except_error_bind (e : ParseError) (f : A → Except ParseError B) :
    (Except.error e : Except ParseError A) >>= f = .error e := rfl

/-- Claim C3: every payload whose `event` field is absent, or whose value
is not one of the 16 tags of the closed enumeration, fails to parse with
`UnknownEventType`. -/
theorem c3_unknown_event_type :
    ∀ j : Json, (eventTag j).bind WasenderWebhookEventType.fromWire = none →
      parseWebhookEvent j = .error .UnknownEventType := by
  intro j h
  unfold parseWebhookEvent
  rw [h]

/-- Witness for C3: a payload with `event` equal to the unrecognised tag
`unknown.tag`. -/
theorem c3_unknown_event_type_witness :
    parseWebhookEvent (.obj [("event", .str "unknown.tag")]) = .error .UnknownEventType :=
  c3_unknown_event_type (.obj [("event", .str "unknown.tag")]) (by rfl)

/-- Claim C4: every `messages.upsert` payload (with a well-formed
envelope `timestamp`) whose `data.key` object lacks the required `id`
field fails to parse with a `SchemaValidationError` naming the field
path `data.key.id`. -/
theorem c4_missing_key_id :
    ∀ (o d k : JObj),
      getField o "event" = some (.str "messages.upsert") →
      timestampFieldOk o →
      getField o "data" = some (.obj d) →
      getField d "key" = some (.obj k) →
      getField k "id" = none →
      parseWebhookEvent (.obj o) = .error (.SchemaValidationError "data.key.id") := by
  intro o d k h1 hts h2 h3 h4
  have he : eventTag (.obj o) = some "messages.upsert" := by
    simp [eventTag, h1]
  have hkey : decodeMessageKey "data.key" (.obj k) =
      .error (.SchemaValidationError "data.key.id") := by
    simp [decodeMessageKey, decodeObj, reqField, h4, joinPath, except_ok_bind, except_error_bind]
  have hdata : decodeMessagesUpsertData "data" (.obj d) =
      .error (.SchemaValidationError "data.key.id") := by
    simp [decodeMessagesUpsertData, decodeObj, reqField, h3, hkey, joinPath,
      except_ok_bind, except_error_bind]
  have hf : WasenderWebhookEventType.fromWire "messages.upsert" = some .MESSAGES_UPSERT := by
    rfl
  unfold parseWebhookEvent
  rw [he]
  show (match WasenderWebhookEventType.fromWire "messages.upsert" with
    | none => (.error .UnknownEventType : Except ParseError WasenderWebhookEvent)
    | some t => parseWithTag t o) = .error (.SchemaValidationError "data.key.id")
  rw [hf]
  show (decodeEnvelope .MESSAGES_UPSERT o decodeMessagesUpsertData).map
      WasenderWebhookEvent.MessagesUpsertEvent = .error (.SchemaValidationError "data.key.id")
  rcases hts with hts | hts | ⟨n, hts⟩ <;>
    simp [decodeEnvelope, optField, reqField, hts, h2, hdata, joinPath, decodeInt,
      except_ok_bind, except_error_bind, Except.map]

/-- Witness for C4: a concrete `messages.upsert` payload whose
`data.key` has `fromMe` and `remoteJid` but no `id`. -/
theorem c4_missing_key_id_witness :
    parseWebhookEvent (.obj [("event", .str "messages.upsert"),
      ("data", .obj [("key", .obj [("fromMe", .bool true), ("remoteJid", .str "r")])])]) =
    .error (.SchemaValidationError "data.key.id") :=
  c4_missing_key_id
    [("event", .str "messages.upsert"),
     ("data", .obj [("key", .obj [("fromMe", .bool true), ("remoteJid", .str "r")])])]
    [("key", .obj [("fromMe", .bool true), ("remoteJid", .str "r")])]
    [("fromMe", .bool true), ("remoteJid", .str "r")]
    rfl (Or.inl rfl) rfl rfl rfl

/-- Claim C5: a `session.status` payload whose `status` is a string
outside the six-value closed enumeration fails to parse with a
`SchemaValidationError` (at `data.status`), while a payload whose
`status` is in the enumeration, with any well-typed optional `sessionId`
and `reason` fields, parses successfully into a `SessionStatusEvent`
holding those values. -/
theorem c5_session_status_enum :
    (∀ (o d : JObj) (s : String),
      getField o "event" = some (.str "session.status") →
      timestampFieldOk o →
      getField o "data" = some (.obj d) →
      getField d "status" = some (.str s) →
      sessionStatusValues.contains s = false →
      parseWebhookEvent (.obj o) = .error (.SchemaValidationError "data.status"))
    ∧ (∀ (st : String) (sid rsn : Option String),
      sessionStatusValues.contains st = true →
      parseWebhookEvent (.obj [("event", .str "session.status"),
        ("data", .obj (("status", .str st) ::
          (optEntry "sessionId" sid .str ++ optEntry "reason" rsn .str)))]) =
      .ok (.SessionStatusEvent
        { event := .SESSION_STATUS
          timestamp := none
          data := { status := st, session_id := sid, reason := rsn }
          session_id := none })) := by
  constructor
  · intro o d s h1 hts h2 h3 h5
    have he : eventTag (.obj o) = some "session.status" := by
      simp [eventTag, h1]
    have hstat : decodeSessionStatus "data.status" (.str s) =
        .error (.SchemaValidationError "data.status") := by
      unfold decodeSessionStatus
      show (match sessionStatusValues.contains s with
        | true => (Except.ok s : Except ParseError String)
        | false => .error (.SchemaValidationError "data.status")) =
        .error (.SchemaValidationError "data.status")
      rw [h5]
    have hdata : decodeSessionStatusData "data" (.obj d) =
        .error (.SchemaValidationError "data.status") := by
      simp [decodeSessionStatusData, decodeObj, reqField, h3, hstat, joinPath,
        except_ok_bind, except_error_bind]
    have hf : WasenderWebhookEventType.fromWire "session.status" = some .SESSION_STATUS := by
      rfl
    unfold parseWebhookEvent
    rw [he]
    show (match WasenderWebhookEventType.fromWire "session.status" with
      | none => (.error .UnknownEventType : Except ParseError WasenderWebhookEvent)
      | some t => parseWithTag t o) = .error (.SchemaValidationError "data.status")
    rw [hf]
    show (decodeEnvelope .SESSION_STATUS o decodeSessionStatusData).map
        WasenderWebhookEvent.SessionStatusEvent = .error (.SchemaValidationError "data.status")
    rcases hts with hts | hts | ⟨n, hts⟩ <;>
      simp [decodeEnvelope, optField, reqField, hts, h2, hdata, joinPath, decodeInt,
        except_ok_bind, except_error_bind, Except.map]
  · intro st sid rsn h
    have hmem : st ∈ sessionStatusValues := by simpa using h
    cases sid <;> cases rsn <;>
      simp [parseWebhookEvent, eventTag, getField, WasenderWebhookEventType.fromWire,
        parseWithTag, decodeEnvelope, optField, reqField, decodeSessionStatusData,
        decodeObj, decodeSessionStatus, decodeStr, decodeInt, joinPath, optEntry, hmem,
        except_ok_bind, except_error_bind, Except.map]

/-- Witness for C5: the status `BOGUS` is rejected at `data.status`, and
a `CONNECTED` payload with both optional fields parses. -/
theorem c5_session_status_enum_witness :
    parseWebhookEvent (.obj [("event", .str "session.status"),
      ("data", .obj [("status", .str "BOGUS")])]) =
      .error (.SchemaValidationError "data.status")
    ∧ parseWebhookEvent (.obj [("event", .str "session.status"),
      ("data", .obj [("status", .str "CONNECTED"), ("sessionId", .str "s1"),
        ("reason", .str "login")])]) =
      .ok (.SessionStatusEvent
        { event := .SESSION_STATUS
          timestamp := none
          data := { status := "CONNECTED", session_id := some "s1", reason := some "login" }
          session_id := none }) :=
  ⟨c5_session_status_enum.1
      [("event", .str "session.status"), ("data", .obj [("status", .str "BOGUS")])]
      [("status", .str "BOGUS")] "BOGUS" rfl (Or.inl rfl) rfl rfl rfl,
   c5_session_status_enum.2 "CONNECTED" (some "s1") (some "login") rfl⟩

/-- Claim C6: the input
`{"event":"qrcode.updated","data":{"qr":"abc123","sessionId":"s1"}}`
parses to a `QrCodeUpdatedEvent` whose `data.qr` is `abc123` and whose
data `session_id` (read from the wire key `sessionId`) is `s1`. -/
theorem c6_qrcode_updated_example :
    parseWebhookEvent (.obj [("event", .str "qrcode.updated"),
      ("data", .obj [("qr", .str "abc123"), ("sessionId", .str "s1")])]) =
    .ok (.QrCodeUpdatedEvent
      { event := .QRCODE_UPDATED
        timestamp := none
        data := { qr := "abc123", session_id := some "s1" }
        session_id := none }) := by rfl

/-- Claim C7: the input
`{"event":"chats.delete","data":["1@s.whatsapp.net","2@s.whatsapp.net"]}`
parses to a `ChatsDeleteEvent` whose data is exactly that two-element
sequence in order. -/
theorem c7_chats_delete_example :
    parseWebhookEvent (.obj [("event", .str "chats.delete"),
      ("data", .arr [.str "1@s.whatsapp.net", .str "2@s.whatsapp.net"])]) =
    .ok (.ChatsDeleteEvent
      { event := .CHATS_DELETE
        timestamp := none
        data := ["1@s.whatsapp.net", "2@s.whatsapp.net"]
        session_id := none }) := by rfl

/-- Claim C8: for each of the 16 event tags, a minimal valid JSON sample
parses to the variant of that tag and re-serialises to exactly the input
(lossless for recognised fields), and samples carrying unrecognised
extra fields (at the top level, inside the data record, and inside a
nested record) parse successfully and re-serialise without the extra
fields. -/
theorem c8_round_trip :
    ((parseWebhookEvent sampleChatsUpsert).map
      (fun e => (e.eventType, serializeWebhookEvent e)) = .ok (.CHATS_UPSERT, sampleChatsUpsert))
    ∧ ((parseWebhookEvent sampleChatsUpdate).map
      (fun e => (e.eventType, serializeWebhookEvent e)) = .ok (.CHATS_UPDATE, sampleChatsUpdate))
    ∧ ((parseWebhookEvent sampleChatsDelete).map
      (fun e => (e.eventType, serializeWebhookEvent e)) = .ok (.CHATS_DELETE, sampleChatsDelete))
    ∧ ((parseWebhookEvent sampleGroupsUpsert).map
      (fun e => (e.eventType, serializeWebhookEvent e)) = .ok (.GROUPS_UPSERT, sampleGroupsUpsert))
    ∧ ((parseWebhookEvent sampleGroupsUpdate).map
      (fun e => (e.eventType, serializeWebhookEvent e)) = .ok (.GROUPS_UPDATE, sampleGroupsUpdate))
    ∧ ((parseWebhookEvent sampleGroupParticipantsUpdate).map
      (fun e => (e.eventType, serializeWebhookEvent e)) =
        .ok (.GROUP_PARTICIPANTS_UPDATE, sampleGroupParticipantsUpdate))
    ∧ ((parseWebhookEvent sampleContactsUpsert).map
      (fun e => (e.eventType, serializeWebhookEvent e)) = .ok (.CONTACTS_UPSERT, sampleContactsUpsert))
    ∧ ((parseWebhookEvent sampleContactsUpdate).map
      (fun e => (e.eventType, serializeWebhookEvent e)) = .ok (.CONTACTS_UPDATE, sampleContactsUpdate))
    ∧ ((parseWebhookEvent sampleMessagesUpsert).map
      (fun e => (e.eventType, serializeWebhookEvent e)) = .ok (.MESSAGES_UPSERT, sampleMessagesUpsert))
    ∧ ((parseWebhookEvent sampleMessagesUpdate).map
      (fun e => (e.eventType, serializeWebhookEvent e)) = .ok (.MESSAGES_UPDATE, sampleMessagesUpdate))
    ∧ ((parseWebhookEvent sampleMessagesDelete).map
      (fun e => (e.eventType, serializeWebhookEvent e)) = .ok (.MESSAGES_DELETE, sampleMessagesDelete))
    ∧ ((parseWebhookEvent sampleMessagesReaction).map
      (fun e => (e.eventType, serializeWebhookEvent e)) = .ok (.MESSAGES_REACTION, sampleMessagesReaction))
    ∧ ((parseWebhookEvent sampleMessageReceiptUpdate).map
      (fun e => (e.eventType, serializeWebhookEvent e)) =
        .ok (.MESSAGE_RECEIPT_UPDATE, sampleMessageReceiptUpdate))
    ∧ ((parseWebhookEvent sampleMessageSent).map
      (fun e => (e.eventType, serializeWebhookEvent e)) = .ok (.MESSAGE_SENT, sampleMessageSent))
    ∧ ((parseWebhookEvent sampleSessionStatus).map
      (fun e => (e.eventType, serializeWebhookEvent e)) = .ok (.SESSION_STATUS, sampleSessionStatus))
    ∧ ((parseWebhookEvent sampleQrcodeUpdated).map
      (fun e => (e.eventType, serializeWebhookEvent e)) = .ok (.QRCODE_UPDATED, sampleQrcodeUpdated))
    ∧ ((parseWebhookEvent sampleQrcodeUpdatedExtra).map
      (fun e => (e.eventType, serializeWebhookEvent e)) = .ok (.QRCODE_UPDATED, sampleQrcodeUpdated))
    ∧ ((parseWebhookEvent sampleMessagesUpsertMinExtra).map
      (fun e => (e.eventType, serializeWebhookEvent e)) =
        .ok (.MESSAGES_UPSERT, sampleMessagesUpsertMin)) :=
  ⟨rfl, rfl, rfl, rfl, rfl, rfl, rfl, rfl, rfl, rfl, rfl, rfl, rfl, rfl, rfl, rfl, rfl, rfl⟩

/-- Claim C9: every field documented with a distinct wire name is read
from its wire-name key, for all field values.  The conjuncts together
exercise every aliased field of the schema: the envelope `sessionId`;
`fromMe` and `remoteJid` of `MessageKey`; `pushName` and
`messageTimestamp` of `MessagesUpsertData`; the seven camelCased media
keys of `MessageContent`; `conversationTimestamp`, `unreadCount`,
`muteEndTime` and `isSpam` of `ChatEntry`; `verifiedName` and `imgUrl`
of `ContactEntry`; `senderTimestampMs` of `Reaction`; `userJid` of
`Receipt`; and the data-level `sessionId` of `SessionStatusData` and of
`QrCodeUpdatedData`.  Each well-formed payload written with the wire
names parses successfully, storing each wire value in the corresponding
internal field. -/
theorem c9_wire_aliases :
    (∀ (idv rj cv : String) (fm : Bool) (pn : Option String) (mt : Option Int)
        (sid : Option String) (im vm dm am sm cm lm : JObj),
      parseWebhookEvent (.obj ([("event", .str "messages.upsert"),
        ("data", .obj ([("key", .obj [("id", .str idv), ("fromMe", .bool fm),
            ("remoteJid", .str rj)]),
          ("message", .obj [("conversation", .str cv),
            ("imageMessage", .obj im), ("videoMessage", .obj vm),
            ("documentMessage", .obj dm), ("audioMessage", .obj am),
            ("stickerMessage", .obj sm), ("contactMessage", .obj cm),
            ("locationMessage", .obj lm)])]
          ++ optEntry "pushName" pn .str
          ++ optEntry "messageTimestamp" mt .num))]
        ++ optEntry "sessionId" sid .str)) =
      .ok (.MessagesUpsertEvent
        { event := .MESSAGES_UPSERT
          timestamp := none
          data := { key := { id := idv, from_me := fm, remote_jid := rj, participant := none }
                    message := some { conversation := some cv
                                      image_message := some im
                                      video_message := some vm
                                      document_message := some dm
                                      audio_message := some am
                                      sticker_message := some sm
                                      contact_message := some cm
                                      location_message := some lm }
                    push_name := pn
                    message_timestamp := mt }
          session_id := sid }))
    ∧ (∀ (idv nm : String) (ct uc mu : Int) (sp : Bool),
      parseWebhookEvent (.obj [("event", .str "chats.upsert"),
        ("data", .arr [.obj [("id", .str idv), ("name", .str nm),
          ("conversationTimestamp", .num ct), ("unreadCount", .num uc),
          ("muteEndTime", .num mu), ("isSpam", .bool sp)]])]) =
      .ok (.ChatsUpsertEvent
        { event := .CHATS_UPSERT
          timestamp := none
          data := [{ id := idv, name := some nm, conversation_timestamp := some ct,
                     unread_count := some uc, mute_end_time := some mu, is_spam := some sp }]
          session_id := none }))
    ∧ (∀ (jd vn iu : String),
      parseWebhookEvent (.obj [("event", .str "contacts.upsert"),
        ("data", .arr [.obj [("jid", .str jd), ("verifiedName", .str vn),
          ("imgUrl", .str iu)]])]) =
      .ok (.ContactsUpsertEvent
        { event := .CONTACTS_UPSERT
          timestamp := none
          data := [{ jid := jd, name := none, notify := none, verified_name := some vn,
                     status := none, img_url := some iu }]
          session_id := none }))
    ∧ (∀ (idv rj tx ts : String) (fm : Bool),
      parseWebhookEvent (.obj [("event", .str "messages.reaction"),
        ("data", .arr [.obj [("key", .obj [("id", .str idv), ("fromMe", .bool fm),
            ("remoteJid", .str rj)]),
          ("reaction", .obj [("text", .str tx),
            ("key", .obj [("id", .str idv), ("fromMe", .bool fm), ("remoteJid", .str rj)]),
            ("senderTimestampMs", .str ts)])]])]) =
      .ok (.MessagesReactionEvent
        { event := .MESSAGES_REACTION
          timestamp := none
          data := [{ key := { id := idv, from_me := fm, remote_jid := rj, participant := none }
                     reaction := { text := tx
                                   key := { id := idv, from_me := fm, remote_jid := rj,
                                            participant := none }
                                   sender_timestamp_ms := some ts
                                   read := none } }]
          session_id := none }))
    ∧ (∀ (idv rj uj st : String) (fm : Bool),
      parseWebhookEvent (.obj [("event", .str "message-receipt.update"),
        ("data", .arr [.obj [("key", .obj [("id", .str idv), ("fromMe", .bool fm),
            ("remoteJid", .str rj)]),
          ("receipt", .obj [("userJid", .str uj), ("status", .str st)])]])]) =
      .ok (.MessageReceiptUpdateEvent
        { event := .MESSAGE_RECEIPT_UPDATE
          timestamp := none
          data := [{ key := { id := idv, from_me := fm, remote_jid := rj, participant := none }
                     receipt := { user_jid := uj, status := st, t := none } }]
          session_id := none }))
    ∧ (∀ (sid2 : String),
      parseWebhookEvent (.obj [("event", .str "session.status"),
        ("data", .obj [("status", .str "CONNECTED"), ("sessionId", .str sid2)])]) =
      .ok (.SessionStatusEvent
        { event := .SESSION_STATUS
          timestamp := none
          data := { status := "CONNECTED", session_id := some sid2, reason := none }
          session_id := none }))
    ∧ (∀ (qr sid2 : String),
      parseWebhookEvent (.obj [("event", .str "qrcode.updated"),
        ("data", .obj [("qr", .str qr), ("sessionId", .str sid2)])]) =
      .ok (.QrCodeUpdatedEvent
        { event := .QRCODE_UPDATED
          timestamp := none
          data := { qr := qr, session_id := some sid2 }
          session_id := none })) := by
  refine ⟨?_, ?_, ?_, ?_, ?_, ?_, ?_⟩
  · intro idv rj cv fm pn mt sid im vm dm am sm cm lm
    cases pn <;> cases mt <;> cases sid <;> rfl
  · intro idv nm ct uc mu sp
    rfl
  · intro jd vn iu
    rfl
  · intro idv rj tx ts fm
    rfl
  · intro idv rj uj st fm
    rfl
  · intro sid2
    rfl
  · intro qr sid2
    rfl

/-- Claim C10: on every envelope instance, subscript access with the
wire alias `sessionId` and with the internal name `session_id` return
the same stored field value, and subscript access with a string that is
neither a field of the instance nor the alias of a declared field yields
`KeyError` (modelled as `none`). -/
theorem c10_getitem_alias :
    ∀ (D : Type) (e : BaseWebhookEvent D) (key : String),
      (e.getItem "sessionId" = e.getItem "session_id"
        ∧ e.getItem "sessionId" = some (.sessionIdVal e.session_id))
      ∧ (key ≠ "event" → key ≠ "timestamp" → key ≠ "data" →
         key ≠ "session_id" → key ≠ "sessionId" → e.getItem key = none) := by
  intro D e key
  constructor
  · exact ⟨rfl, rfl⟩
  · intro h1 h2 h3 h4 h5
    simp [BaseWebhookEvent.getItem, h1, h2, h3, h4, h5]

/-- Witness for C10 at a concrete envelope and the unknown key
`bogus`. -/
theorem c10_getitem_alias_witness :
    ({ event := .CHATS_DELETE, timestamp := none, data := ["x"], session_id := some "s" } :
      BaseWebhookEvent (List String)).getItem "bogus" = none
    ∧ ({ event := .CHATS_DELETE, timestamp := none, data := ["x"], session_id := some "s" } :
      BaseWebhookEvent (List String)).getItem "sessionId" =
      ({ event := .CHATS_DELETE, timestamp := none, data := ["x"], session_id := some "s" } :
        BaseWebhookEvent (List String)).getItem "session_id" :=
  ⟨(c10_getitem_alias (List String)
      { event := .CHATS_DELETE, timestamp := none, data := ["x"], session_id := some "s" }
      "bogus").2 (by decide) (by decide) (by decide) (by decide) (by decide),
   (c10_getitem_alias (List String)
      { event := .CHATS_DELETE, timestamp := none, data := ["x"], session_id := some "s" }
      "bogus").1.1⟩

end Wasender
